import Mathlib

/-!
Verification of the order-state reconciliation core of a crypto-payment
Telegram bot.  The data model (users, orders, transactions) and every
operation that reads or mutates it are embedded shallowly from the Python
sources: `database.py` (the SQLite store), `main.py` / `bot.py` (the two
bot implementations with their poll-path `check_payment` and cancel
handlers plus the Flask webhook in `bot.py`), `webhook.py` (the standalone
webhook handler), `admin.py` (manual admin operations) and `cryptobot.py`
(the gateway client and its status normalization).

Monetary amounts (REAL columns / Python floats) are modelled as rationals;
status strings that the code ever writes are modelled by the `Status`
enumeration; timestamps are opaque strings threaded in as a `now`
parameter.  Each `Database` method in `database.py` opens its own
connection and commits on exit, so a sequence of such calls is a sequence
of separately committed transactions; this is made explicit for the
atomicity analysis via `commitPrefix`.
-/

namespace Tgbot

/-- Order status values the code ever stores: the initial `pending` and the
three terminal states written by the reconciliation / cancel paths. -/
inductive Status
  | pending
  | paid
  | cancelled
  | expired
deriving DecidableEq, Repr

/-- A row of the `users` table: `user_id`, `total_spent REAL DEFAULT 0`,
`orders_count INTEGER DEFAULT 0` (identity columns such as username are
irrelevant to every claim and omitted). -/
structure UserRow where
  user_id : Nat
  total_spent : Rat
  orders_count : Nat
deriving DecidableEq, Repr

/-- A row of the `orders` table (the columns the claims touch):
`order_id`, `user_id`, `amount_usd`, `invoice_id`, `status`, `paid_at`. -/
structure OrderRow where
  order_id : String
  user_id : Nat
  amount_usd : Rat
  invoice_id : String
  status : Status
  paid_at : Option String
deriving DecidableEq, Repr

/-- A row of the `transactions` table: `invoice_id`, `order_id`, `amount`,
`asset`/`currency`, `status`.  Neither schema (`database.py` nor
`bot.py`) declares a uniqueness constraint on `invoice_id`; `database.py`
only adds the non-unique index `idx_transactions_invoice_id`. -/
structure TxnRow where
  invoice_id : String
  order_id : String
  amount : Rat
  asset : String
  status : Status
deriving DecidableEq, Repr

/-- The persistent store: the three relations of `init_db`. -/
structure DB where
  users : List UserRow
  orders : List OrderRow
  transactions : List TxnRow
deriving DecidableEq, Repr

/-- `database.py get_user`: `SELECT * FROM users WHERE user_id = ?`. -/
def getUser (db : DB) (uid : Nat) : Option UserRow :=
  db.users.find? (fun u => u.user_id == uid)

/-- `database.py get_order`: `SELECT * FROM orders WHERE order_id = ?`. -/
def getOrder (db : DB) (oid : String) : Option OrderRow :=
  db.orders.find? (fun o => o.order_id == oid)

/-- `database.py get_order_by_invoice`:
`SELECT * FROM orders WHERE invoice_id = ?`. -/
def getOrderByInvoice (db : DB) (inv : String) : Option OrderRow :=
  db.orders.find? (fun o => o.invoice_id == inv)

/-- `database.py update_order_status`: `UPDATE orders SET status = ?`
(and `paid_at = ?` when a paid timestamp is supplied) `WHERE order_id = ?`. -/
def updateOrderStatus (db : DB) (oid : String) (st : Status)
    (paidAt : Option String) : DB :=
  { db with
    orders := db.orders.map (fun o =>
      if o.order_id == oid then
        match paidAt with
        | some t => { o with status := st, paid_at := some t }
        | none => { o with status := st }
      else o) }

/-- `database.py update_user_stats`: `UPDATE users SET total_spent =
total_spent + ?, orders_count = orders_count + 1 WHERE user_id = ?`. -/
def updateUserStats (db : DB) (uid : Nat) (amount : Rat) : DB :=
  { db with
    users := db.users.map (fun u =>
      if u.user_id == uid then
        { u with total_spent := u.total_spent + amount,
                 orders_count := u.orders_count + 1 }
      else u) }

/-- `database.py create_transaction`: a plain `INSERT INTO transactions`;
the schema imposes no uniqueness on `invoice_id`, so the insert always
succeeds and appends a row. -/
def createTransaction (db : DB) (inv oid : String) (amount : Rat)
    (asset : String) (st : Status) : DB :=
  { db with transactions := db.transactions ++ [⟨inv, oid, amount, asset, st⟩] }

/-- `database.py transaction_exists`:
`SELECT 1 FROM transactions WHERE invoice_id = ? LIMIT 1`. -/
def transactionExists (db : DB) (inv : String) : Bool :=
  db.transactions.any (fun t => t.invoice_id == inv)

/-- Number of transaction rows recorded for a given provider invoice id. -/
def txnCount (db : DB) (inv : String) : Nat :=
  (db.transactions.filter (fun t => t.invoice_id == inv)).length

/-- `database.py get_or_create_user`: returns the existing row unchanged,
or inserts a fresh row whose aggregates take the schema defaults (0, 0). -/
def getOrCreateUser (db : DB) (uid : Nat) : DB :=
  match getUser db uid with
  | some _ => db
  | none => { db with users := db.users ++ [⟨uid, 0, 0⟩] }

/-- `bot.py cmd_start`: `INSERT OR REPLACE INTO users (user_id, username,
first_name) VALUES (?, ?, ?)`.  On a `user_id` conflict SQLite deletes the
old row and inserts the new one, whose unlisted columns `total_spent` and
`orders_count` take their schema defaults 0 and 0. -/
def cmdStartRegister (db : DB) (uid : Nat) : DB :=
  { db with
    users := db.users.filter (fun u => !(u.user_id == uid)) ++ [⟨uid, 0, 0⟩] }

/-! ## Payment gateway client (`cryptobot.py` and the `bot.py` duplicate) -/

/-- `cryptobot.py PaymentStatus`: the three-member enumeration the gateway
client normalizes into (`PENDING` = "active", `PAID`, `EXPIRED`). -/
inductive PaymentStatus
  | PENDING
  | PAID
  | EXPIRED
deriving DecidableEq, Repr

/-- The provider-side invoice fields the clients read back: the raw status
string and the settled amount / asset. -/
structure RawInvoice where
  status : String
  amount : Rat
  asset : String
deriving DecidableEq, Repr

/-- The `status_map` of `cryptobot.py check_payment` (and
`check_payment_sync`): "active" to pending, "paid" to paid, "expired" to
expired, with `PaymentStatus.EXPIRED` as the `.get` default for any other
raw status. -/
def normalizeStatus (raw : String) : PaymentStatus :=
  if raw == "active" then .PENDING
  else if raw == "paid" then .PAID
  else if raw == "expired" then .EXPIRED
  else .EXPIRED

/-- `cryptobot.py PaymentCheck` (the fields the callers use). -/
structure PaymentCheck where
  status : PaymentStatus
  amount : Rat
  asset : String
  is_paid : Bool
deriving DecidableEq, Repr

/-- `cryptobot.py CryptoBotAPI.check_payment`, given the result of
`get_invoice` (`none` when the provider reported `INVOICE_NOT_FOUND`):
a missing invoice is returned as `EXPIRED`, otherwise the raw status is
normalized and `is_paid` is the comparison with `PAID`. -/
def cryptobotCheckPayment (inv : Option RawInvoice) : PaymentCheck :=
  match inv with
  | none => ⟨.EXPIRED, 0, "", false⟩
  | some i =>
    let st := normalizeStatus i.status
    ⟨st, i.amount, i.asset, st == .PAID⟩

/-- Input to `cryptobot.py check_payment_sync`: the provider returned a
successful body, returned `ok = false`, or the `requests` call raised. -/
inductive SyncResult
  | ok (inv : RawInvoice)
  | notOk
  | netError (msg : String)
deriving DecidableEq, Repr

/-- `cryptobot.py check_payment_sync`: a non-ok body yields an `EXPIRED`
result, and the blanket exception handler at the end likewise turns any
raised transport error into an `EXPIRED` result. -/
def checkPaymentSync (r : SyncResult) : PaymentCheck :=
  match r with
  | .ok i =>
    let st := normalizeStatus i.status
    ⟨st, i.amount, i.asset, st == .PAID⟩
  | .notOk => ⟨.EXPIRED, 0, "", false⟩
  | .netError _ => ⟨.EXPIRED, 0, "", false⟩

/-- Status vocabulary of the simplified client in `bot.py`
(`CryptoBotAPI.check_payment` there): it emits the strings "pending",
"paid", "expired" and also "unknown". -/
inductive BotStatus
  | pending
  | paid
  | expired
  | unknown
deriving DecidableEq, Repr

/-- The `status_map` of `bot.py CryptoBotAPI.check_payment`: "active" to
"pending", "paid" to "paid", "expired" to "expired", with "unknown" as the
`.get` default. -/
def botNormalizeStatus (raw : String) : BotStatus :=
  if raw == "active" then .pending
  else if raw == "paid" then .paid
  else if raw == "expired" then .expired
  else .unknown

/-- Result dictionary of `bot.py CryptoBotAPI.check_payment`. -/
structure BotPaymentCheck where
  status : BotStatus
  is_paid : Bool
  amount : Rat
  asset : String
deriving DecidableEq, Repr

/-- `bot.py CryptoBotAPI.check_payment`: when `get_invoice` returns `None`
the result is status "unknown" with `is_paid = False`; otherwise the raw
status is mapped through `botNormalizeStatus`. -/
def botCheckPayment (inv : Option RawInvoice) : BotPaymentCheck :=
  match inv with
  | none => ⟨.unknown, false, 0, ""⟩
  | some i =>
    let st := botNormalizeStatus i.status
    ⟨st, st == .paid, i.amount, i.asset⟩

/-! ## Reconciliation operations -/

/-- Outcome of a reconciliation / cancel entry point as surfaced to the
caller (the message branch taken by the handler). -/
inductive Outcome
  | NotFound
  | Confirmed
  | NotPaid (st : PaymentStatus)
  | CheckFailed
  | Denied
  | Cancelled
deriving DecidableEq, Repr

/-- What the gateway round trip delivered to a poll handler: either a
`PaymentCheck`, or a raised `CryptoBotError` (network or protocol error)
caught by the handler's `except` block. -/
inductive GatewayResult
  | success (pc : PaymentCheck)
  | error (msg : String)
deriving DecidableEq, Repr

/-- `main.py check_payment` (the user "I paid" poll handler).  Loads the
order; without any terminal-status check, a paid gateway result sets the
status to paid, increments the user aggregates, and inserts a transaction
guarded by `transaction_exists`; a non-paid result only renders a message;
a raised gateway error is caught and reported as a check failure. -/
def checkPaymentMain (db : DB) (oid : String) (gw : GatewayResult)
    (now : String) : DB × Outcome :=
  match getOrder db oid with
  | none => (db, .NotFound)
  | some order =>
    match gw with
    | .error _ => (db, .CheckFailed)
    | .success payment =>
      if payment.is_paid then
        let db1 := updateOrderStatus db oid .paid (some now)
        let db2 := updateUserStats db1 order.user_id order.amount_usd
        let db3 :=
          if transactionExists db2 order.invoice_id then db2
          else createTransaction db2 order.invoice_id oid
            payment.amount payment.asset .paid
        (db3, .Confirmed)
      else
        (db, .NotPaid payment.status)

/-- `bot.py check_payment` (the duplicate poll handler).  Same shape as
`checkPaymentMain` but with no `transaction_exists` guard at all: a paid
result always inserts a fresh transaction row. -/
def checkPaymentBot (db : DB) (oid : String) (gw : GatewayResult)
    (now : String) : DB × Outcome :=
  match getOrder db oid with
  | none => (db, .NotFound)
  | some order =>
    match gw with
    | .error _ => (db, .CheckFailed)
    | .success payment =>
      if payment.is_paid then
        let db1 := updateOrderStatus db oid .paid (some now)
        let db2 := updateUserStats db1 order.user_id order.amount_usd
        let db3 := createTransaction db2 order.invoice_id oid
          payment.amount payment.asset .paid
        (db3, .Confirmed)
      else
        (db, .NotPaid payment.status)

/-- The `invoice_paid` webhook body fields the handlers use: the provider
invoice id, the correlation payload (the order id, `""` when absent) and
the settled amount / asset. -/
structure WebhookInvoiceData where
  invoice_id : String
  payload_order_id : String
  amount : Rat
  asset : String
deriving DecidableEq, Repr

/-- HTTP-level outcome of the standalone webhook handler. -/
inductive WebhookOutcome
  | notFound
  | alreadyProcessed
  | ok
deriving DecidableEq, Repr

/-- `webhook.py CryptoBotWebhookHandler._handle_invoice_paid`: locate the
order by the correlation payload, falling back to lookup by invoice id;
answer `already_processed` only when the stored status is exactly `paid`;
otherwise (pending, but also cancelled or expired) set status to paid,
update the user aggregates, and insert a transaction guarded by
`transaction_exists`.  Each of the three writes is a separate
`database.py` call, hence a separately committed transaction. -/
def handleInvoicePaid (db : DB) (d : WebhookInvoiceData) (now : String) :
    DB × WebhookOutcome :=
  let byPayload := if d.payload_order_id == "" then none
                   else getOrder db d.payload_order_id
  let found := match byPayload with
               | some o => some o
               | none => getOrderByInvoice db d.invoice_id
  match found with
  | none => (db, .notFound)
  | some order =>
    if order.status = .paid then (db, .alreadyProcessed)
    else
      let db1 := updateOrderStatus db order.order_id .paid (some now)
      let db2 := updateUserStats db1 order.user_id order.amount_usd
      let db3 :=
        if transactionExists db2 d.invoice_id then db2
        else createTransaction db2 d.invoice_id order.order_id
          d.amount d.asset .paid
      (db3, .ok)

/-- `bot.py webhook` (the Flask route): only an order found by the
correlation payload and still `pending` is processed; the three writes
share one connection and are committed together; no
`transaction_exists` guard (the `pending` check makes a second delivery a
no-op). -/
def botWebhookInvoicePaid (db : DB) (d : WebhookInvoiceData)
    (now : String) : DB :=
  if d.payload_order_id == "" then db
  else
    match getOrder db d.payload_order_id with
    | none => db
    | some order =>
      if order.status = .pending then
        let db1 := updateOrderStatus db d.payload_order_id .paid (some now)
        let db2 := updateUserStats db1 order.user_id order.amount_usd
        createTransaction db2 d.invoice_id d.payload_order_id
          d.amount d.asset .paid
      else db

/-- `main.py cancel_payment`: a missing order is reported not-found; a
non-pending order is answered "already processed" with no mutation; a
pending order is set to cancelled (no monetary effect). -/
def cancelPaymentMain (db : DB) (oid : String) : DB × Outcome :=
  match getOrder db oid with
  | none => (db, .NotFound)
  | some order =>
    if order.status ≠ .pending then (db, .Denied)
    else (updateOrderStatus db oid .cancelled none, .Cancelled)

/-- `bot.py cancel_order`: identical guard structure to
`cancelPaymentMain` in the duplicate implementation. -/
def cancelOrderBot (db : DB) (oid : String) : DB × Outcome :=
  match getOrder db oid with
  | none => (db, .NotFound)
  | some order =>
    if order.status ≠ .pending then (db, .Denied)
    else (updateOrderStatus db oid .cancelled none, .Cancelled)

/-- `admin.py AdminPanel.manual_confirm_order`: no status check at all;
any existing order is set to paid and the user aggregates are incremented
(no transaction row is inserted on this path). -/
def manualConfirmOrder (db : DB) (oid : String) (now : String) : DB :=
  match getOrder db oid with
  | none => db
  | some order =>
    let db1 := updateOrderStatus db oid .paid (some now)
    updateUserStats db1 order.user_id order.amount_usd

/-- `admin.py AdminPanel.manual_cancel_order`: no status check; any
existing order is set to cancelled unconditionally. -/
def manualCancelOrder (db : DB) (oid : String) : DB :=
  match getOrder db oid with
  | none => db
  | some _ => updateOrderStatus db oid .cancelled none

/-- `admin.py AdminPanel.manual_check_payment`: unlike the user poll
handlers this one refuses to proceed unless the stored status is still
pending; the paid branch then matches `checkPaymentMain`. -/
def manualCheckPayment (db : DB) (oid : String) (gw : GatewayResult)
    (now : String) : DB × Outcome :=
  match getOrder db oid with
  | none => (db, .NotFound)
  | some order =>
    if order.status ≠ .pending then (db, .Denied)
    else
      match gw with
      | .error _ => (db, .CheckFailed)
      | .success payment =>
        if payment.is_paid then
          let db1 := updateOrderStatus db oid .paid (some now)
          let db2 := updateUserStats db1 order.user_id order.amount_usd
          let db3 :=
            if transactionExists db2 order.invoice_id then db2
            else createTransaction db2 order.invoice_id oid
              payment.amount payment.asset .paid
          (db3, .Confirmed)
        else
          (db, .NotPaid payment.status)

/-- The inline duplicate-insert guard used by `main.py`, `webhook.py` and
`admin.py` around `create_transaction`:
`if not db.transaction_exists(invoice_id): db.create_transaction(...)`. -/
def guardedCreateTransaction (db : DB) (inv oid : String) (amount : Rat)
    (asset : String) : DB :=
  if transactionExists db inv then db
  else createTransaction db inv oid amount asset .paid

/-- The pending-to-paid write sequence of
`webhook.py _handle_invoice_paid` as the list of separately committed
store transactions it issues (each `database.py` method opens its own
connection and commits before returning). -/
def webhookPaidWrites (order : OrderRow) (d : WebhookInvoiceData)
    (now : String) : List (DB → DB) :=
  [ fun db => updateOrderStatus db order.order_id .paid (some now)
  , fun db => updateUserStats db order.user_id order.amount_usd
  , fun db => guardedCreateTransaction db d.invoice_id order.order_id
      d.amount d.asset ]

/-- The store state observable after the first `k` of a sequence of
separately committed transactions (a crash between commits leaves exactly
such a prefix state). -/
def commitPrefix (ws : List (DB → DB)) (k : Nat) (db : DB) : DB :=
  (ws.take k).foldl (fun s f => f s) db

/-! ## Concrete store states used to evaluate the operations -/

/-- A store with one fresh user and one pending order of 9.99 USD. -/
def dbC1 : DB :=
  { users := [⟨7, 0, 0⟩],
    orders := [⟨"ord1", 7, 9.99, "inv1", .pending, none⟩],
    transactions := [] }

/-- The gateway answer "invoice paid, 9.99 USDT settled". -/
def gwPaidC1 : GatewayResult := .success ⟨.PAID, 9.99, "USDT", true⟩

/-- A store whose single order has already been cancelled. -/
def dbC2 : DB :=
  { users := [⟨9, 0, 0⟩],
    orders := [⟨"ord2", 9, 10, "inv2", .cancelled, none⟩],
    transactions := [] }

/-- The empty store. -/
def dbC3 : DB := { users := [], orders := [], transactions := [] }

/-- A pending order used for the atomicity analysis. -/
def ordC4 : OrderRow := ⟨"ord4", 11, 10, "inv4", .pending, none⟩

/-- Store containing `ordC4` and its owner. -/
def dbC4 : DB :=
  { users := [⟨11, 0, 0⟩], orders := [ordC4], transactions := [] }

/-- The webhook body paying `ordC4`. -/
def dC4 : WebhookInvoiceData := ⟨"inv4", "ord4", 10, "USDT"⟩

/-- The three separately committed writes the standalone webhook issues
for `ordC4`. -/
def wsC4 : List (DB → DB) := webhookPaidWrites ordC4 dC4 "t1"

/-- The pending order of the simple-success scenario (9.99 USD). -/
def ordC5 : OrderRow := ⟨"ord5", 5, 9.99, "inv5", .pending, none⟩

/-- Store for the simple-success scenario. -/
def dbC5 : DB :=
  { users := [⟨5, 0, 0⟩], orders := [ordC5], transactions := [] }

/-- Store with a pending order used for the expiry scenario. -/
def dbC6 : DB :=
  { users := [⟨6, 0, 0⟩],
    orders := [⟨"ord6", 6, 10, "inv6", .pending, none⟩],
    transactions := [] }

/-- Store whose single order is already paid. -/
def dbC7 : DB :=
  { users := [⟨3, 0, 0⟩],
    orders := [⟨"ord7", 3, 10, "inv7", .paid, some "t0"⟩],
    transactions := [] }

/-- Store with a returning user who has spent 9.99 over one order. -/
def dbC8 : DB :=
  { users := [⟨7, 9.99, 1⟩], orders := [], transactions := [] }

/-- Store with a pending order used for the transport-error scenario. -/
def dbC9 : DB :=
  { users := [⟨2, 0, 0⟩],
    orders := [⟨"ord9", 2, 10, "inv9", .pending, none⟩],
    transactions := [] }

/-! ## Helper lemmas about the store operations -/

theorem find?_map_cond {α : Type} (p : α → Bool) (g : α → α)
    (hg : ∀ a, p (g a) = p a) :
    ∀ l : List α,
      (l.map (fun a => if p a then g a else a)).find? p = (l.find? p).map g
  | [] => rfl
  | a :: t => by
    by_cases hpa : p a
    · have hga : p (g a) := by rw [hg]; exact hpa
      simp [hpa, hga, List.find?_cons_of_pos]
    · simp [hpa, List.find?_cons_of_neg, find?_map_cond p g hg t]

theorem getOrder_updateOrderStatus (db : DB) (oid : String) (st : Status)
    (pa : Option String) :
    getOrder (updateOrderStatus db oid st pa) oid =
      (getOrder db oid).map (fun o =>
        match pa with
        | some t => { o with status := st, paid_at := some t }
        | none => { o with status := st }) :=
  find?_map_cond _ _ (fun o => by cases pa <;> rfl) _

theorem getUser_updateUserStats (db : DB) (uid : Nat) (amount : Rat) :
    getUser (updateUserStats db uid amount) uid =
      (getUser db uid).map (fun u =>
        { u with total_spent := u.total_spent + amount,
                 orders_count := u.orders_count + 1 }) :=
  find?_map_cond (fun (u : UserRow) => u.user_id == uid)
    (fun (u : UserRow) =>
      { u with total_spent := u.total_spent + amount,
               orders_count := u.orders_count + 1 })
    (fun _ => rfl) db.users

theorem getUser_updateOrderStatus (db : DB) (oid : String) (st : Status)
    (pa : Option String) (uid : Nat) :
    getUser (updateOrderStatus db oid st pa) uid = getUser db uid := rfl

theorem getOrder_updateUserStats (db : DB) (uid : Nat) (amount : Rat)
    (oid : String) :
    getOrder (updateUserStats db uid amount) oid = getOrder db oid := rfl

theorem getOrder_createTransaction (db : DB) (inv oid : String)
    (amount : Rat) (asset : String) (st : Status) (oid2 : String) :
    getOrder (createTransaction db inv oid amount asset st) oid2 =
      getOrder db oid2 := rfl

theorem getUser_createTransaction (db : DB) (inv oid : String)
    (amount : Rat) (asset : String) (st : Status) (uid : Nat) :
    getUser (createTransaction db inv oid amount asset st) uid =
      getUser db uid := rfl

theorem transactions_updateOrderStatus (db : DB) (oid : String)
    (st : Status) (pa : Option String) :
    (updateOrderStatus db oid st pa).transactions = db.transactions := rfl

theorem transactions_updateUserStats (db : DB) (uid : Nat) (amount : Rat) :
    (updateUserStats db uid amount).transactions = db.transactions := rfl

theorem transactions_createTransaction (db : DB) (inv oid : String)
    (amount : Rat) (asset : String) (st : Status) :
    (createTransaction db inv oid amount asset st).transactions =
      db.transactions ++ [⟨inv, oid, amount, asset, st⟩] := rfl

theorem transactionExists_updateOrderStatus (db : DB) (oid : String)
    (st : Status) (pa : Option String) (inv : String) :
    transactionExists (updateOrderStatus db oid st pa) inv =
      transactionExists db inv := rfl

theorem transactionExists_updateUserStats (db : DB) (uid : Nat)
    (amount : Rat) (inv : String) :
    transactionExists (updateUserStats db uid amount) inv =
      transactionExists db inv := rfl

theorem txnCount_createTransaction_same (db : DB) (inv oid : String)
    (amount : Rat) (asset : String) (st : Status) :
    txnCount (createTransaction db inv oid amount asset st) inv =
      txnCount db inv + 1 := by
  unfold txnCount createTransaction
  simp [List.filter_append]

theorem txnCount_eq_zero_of_not_exists (db : DB) (inv : String)
    (he : transactionExists db inv = false) :
    txnCount db inv = 0 := by
  unfold transactionExists at he
  unfold txnCount
  rw [List.length_eq_zero, List.filter_eq_nil_iff]
  intro t ht
  rw [List.any_eq_false] at he
  exact he t ht

/-! ## Claim C1 -/

/-- Claim C1 (code evaluation): calling the user "I paid" reconciliation
of `main.py` twice in a row on a pending order whose invoice the gateway
reports paid on both calls does NOT credit the user exactly once: both
calls confirm, the owner's `orders_count` ends at 2 and `total_spent` at
19.98 (two increments of 9.99), while the `transaction_exists` guard
limits the store to a single Transaction row. -/
theorem checkPaymentMain_double_reconcile_double_credit :
    (checkPaymentMain dbC1 "ord1" gwPaidC1 "t1").2 = .Confirmed ∧
    (checkPaymentMain (checkPaymentMain dbC1 "ord1" gwPaidC1 "t1").1
      "ord1" gwPaidC1 "t2").2 = .Confirmed ∧
    (getUser (checkPaymentMain (checkPaymentMain dbC1 "ord1" gwPaidC1 "t1").1
      "ord1" gwPaidC1 "t2").1 7).map (fun u => u.orders_count) = some 2 ∧
    (getUser (checkPaymentMain (checkPaymentMain dbC1 "ord1" gwPaidC1 "t1").1
      "ord1" gwPaidC1 "t2").1 7).map (fun u => u.total_spent) =
      some (19.98 : Rat) ∧
    txnCount (checkPaymentMain (checkPaymentMain dbC1 "ord1" gwPaidC1 "t1").1
      "ord1" gwPaidC1 "t2").1 "inv1" = 1 := by
  refine ⟨rfl, rfl, rfl, ?_, rfl⟩
  have h : (getUser (checkPaymentMain (checkPaymentMain dbC1 "ord1" gwPaidC1
      "t1").1 "ord1" gwPaidC1 "t2").1 7).map (fun u => u.total_spent) =
      some ((0 : Rat) + 9.99 + 9.99) := rfl
  rw [h]
  norm_num

/-! ## Claim C2 -/

/-- Claim C2 (code evaluation): terminal monotonicity fails.  The
standalone webhook handler only refuses orders whose status is exactly
`paid`; delivering an `invoice_paid` event for an order that was already
cancelled flips its status to paid, creates a Transaction for it and
credits the owner. -/
theorem handleInvoicePaid_overrides_cancelled_order :
    (handleInvoicePaid dbC2 ⟨"inv2", "ord2", 10, "USDT"⟩ "t1").2 = .ok ∧
    (getOrder (handleInvoicePaid dbC2 ⟨"inv2", "ord2", 10, "USDT"⟩ "t1").1
      "ord2").map (fun o => o.status) = some .paid ∧
    txnCount (handleInvoicePaid dbC2 ⟨"inv2", "ord2", 10, "USDT"⟩ "t1").1
      "inv2" = 1 ∧
    (getUser (handleInvoicePaid dbC2 ⟨"inv2", "ord2", 10, "USDT"⟩ "t1").1
      9).map (fun u => u.orders_count) = some 1 ∧
    (getOrder dbC2 "ord2").map (fun o => o.status) = some .cancelled :=
  ⟨rfl, rfl, rfl, rfl, rfl⟩

/-! ## Claim C3 -/

/-- Claim C3 (counterexample): the store has no uniqueness constraint on
the transactions table's provider invoice id — inserting a second
Transaction with an already-used invoice id is not rejected; both rows
are stored. -/
theorem createTransaction_duplicate_invoice_accepted :
    txnCount (createTransaction
      (createTransaction dbC3 "invX" "o1" 5 "USDT" .paid)
      "invX" "o2" 5 "USDT" .paid) "invX" = 2 := rfl

/-- Claim C3 (amended): at most one Transaction per provider invoice id is
maintained not by a store constraint but by the application-level
`transaction_exists` guard wrapped around the insert on the `main.py`,
`webhook.py` and `admin.py` paths: the guarded insert never grows the
count for an invoice id beyond one, and is the identity when a row for
that invoice id already exists. -/
theorem guardedCreateTransaction_at_most_one
    (db : DB) (inv oid : String) (amount : Rat) (asset : String)
    (h : txnCount db inv ≤ 1) :
    txnCount (guardedCreateTransaction db inv oid amount asset) inv ≤ 1 ∧
    (transactionExists db inv = true →
      guardedCreateTransaction db inv oid amount asset = db) := by
  constructor
  · unfold guardedCreateTransaction
    by_cases he : transactionExists db inv
    · simpa [he] using h
    · have h0 : txnCount db inv = 0 :=
        txnCount_eq_zero_of_not_exists db inv (by simpa using he)
      simp [he, txnCount_createTransaction_same, h0]
  · intro he
    unfold guardedCreateTransaction
    simp [he]

/-- Claim C3 (witness): the guarded insert applied to the empty store. -/
theorem guardedCreateTransaction_at_most_one_witness :
    txnCount (guardedCreateTransaction dbC3 "invX" "o1" 5 "USDT") "invX" ≤ 1 ∧
    (transactionExists dbC3 "invX" = true →
      guardedCreateTransaction dbC3 "invX" "o1" 5 "USDT" = dbC3) :=
  guardedCreateTransaction_at_most_one dbC3 "invX" "o1" 5 "USDT" (by decide)

/-! ## Claim C4 -/

/-- Claim C4 (counterexample): the standalone webhook's pending-to-paid
transition is not all-or-none.  Its three writes are separately committed
store transactions; stopping after the first commit yields a state that is
neither the initial store nor the fully updated one. -/
theorem webhookPaidWrites_not_atomic :
    ¬ (∀ k, k ≤ 3 → commitPrefix wsC4 k dbC4 = dbC4 ∨
        commitPrefix wsC4 k dbC4 = commitPrefix wsC4 3 dbC4) := by
  intro h
  rcases h 1 (by omega) with h1 | h1
  · exact absurd (congrArg
      (fun s => (getOrder s "ord4").map (fun o => o.status)) h1) (by decide)
  · exact absurd (congrArg
      (fun s => (getUser s 11).map (fun u => u.orders_count)) h1) (by decide)

/-- Claim C4 (amended): in `webhook.py` the pending-to-paid transition is
three separately committed store transactions (each `database.py` method
opens and commits its own connection), so a failure after the first commit
leaves a partially-updated state: the order is already marked paid while
the user aggregates and the transaction table are still untouched. -/
theorem webhookPaid_first_commit_partial
    (db : DB) (order : OrderRow) (d : WebhookInvoiceData) (now : String)
    (hord : getOrder db order.order_id = some order) :
    (getOrder (commitPrefix (webhookPaidWrites order d now) 1 db)
      order.order_id).map (fun o => o.status) = some .paid ∧
    (commitPrefix (webhookPaidWrites order d now) 1 db).users = db.users ∧
    (commitPrefix (webhookPaidWrites order d now) 1 db).transactions =
      db.transactions := by
  have hc : commitPrefix (webhookPaidWrites order d now) 1 db =
      updateOrderStatus db order.order_id .paid (some now) := rfl
  refine ⟨?_, rfl, rfl⟩
  rw [hc, getOrder_updateOrderStatus, hord]
  rfl

/-- Claim C4 (witness): the partial-commit state for the concrete pending
order `ordC4`. -/
theorem webhookPaid_first_commit_partial_witness :
    (getOrder (commitPrefix (webhookPaidWrites ordC4 dC4 "t1") 1 dbC4)
      "ord4").map (fun o => o.status) = some .paid ∧
    (commitPrefix (webhookPaidWrites ordC4 dC4 "t1") 1 dbC4).users =
      dbC4.users ∧
    (commitPrefix (webhookPaidWrites ordC4 dC4 "t1") 1 dbC4).transactions =
      dbC4.transactions :=
  webhookPaid_first_commit_partial dbC4 ordC4 dC4 "t1" rfl

/-! ## Claim C5 -/

/-- Claim C5: for a pending order whose invoice the gateway reports paid,
the `main.py` reconciliation confirms: the order's status becomes paid
with `paid_at` set, the owner's `total_spent` grows by the order's USD
amount and `orders_count` by one, and exactly one Transaction with the
settled amount and asset is appended. -/
theorem checkPaymentMain_paid_confirms
    (db : DB) (oid now : String) (order : OrderRow) (u : UserRow)
    (amt : Rat) (asset : String)
    (hord : getOrder db oid = some order)
    (_hpend : order.status = Status.pending)
    (hu : getUser db order.user_id = some u)
    (hnotx : transactionExists db order.invoice_id = false) :
    (checkPaymentMain db oid (.success ⟨.PAID, amt, asset, true⟩) now).2 =
      .Confirmed ∧
    getOrder (checkPaymentMain db oid
        (.success ⟨.PAID, amt, asset, true⟩) now).1 oid =
      some { order with status := .paid, paid_at := some now } ∧
    getUser (checkPaymentMain db oid
        (.success ⟨.PAID, amt, asset, true⟩) now).1 order.user_id =
      some { u with total_spent := u.total_spent + order.amount_usd,
                    orders_count := u.orders_count + 1 } ∧
    (checkPaymentMain db oid
        (.success ⟨.PAID, amt, asset, true⟩) now).1.transactions =
      db.transactions ++ [⟨order.invoice_id, oid, amt, asset, .paid⟩] := by
  have hex : transactionExists
      (updateUserStats (updateOrderStatus db oid .paid (some now))
        order.user_id order.amount_usd) order.invoice_id = false := by
    rw [transactionExists_updateUserStats,
      transactionExists_updateOrderStatus, hnotx]
  have hstep : checkPaymentMain db oid
      (.success ⟨.PAID, amt, asset, true⟩) now =
      (createTransaction
        (updateUserStats (updateOrderStatus db oid .paid (some now))
          order.user_id order.amount_usd)
        order.invoice_id oid amt asset .paid, .Confirmed) := by
    unfold checkPaymentMain
    rw [hord]
    simp [hex]
  rw [hstep]
  refine ⟨rfl, ?_, ?_, rfl⟩
  · rw [getOrder_createTransaction, getOrder_updateUserStats,
      getOrder_updateOrderStatus, hord]
    rfl
  · rw [getUser_createTransaction, getUser_updateUserStats,
      getUser_updateOrderStatus, hu]
    rfl

/-- Claim C5 (witness): the simple-success scenario — order pending,
amount 9.99, gateway reports paid 9.99 USDT. -/
theorem checkPaymentMain_paid_confirms_witness :
    (checkPaymentMain dbC5 "ord5"
      (.success ⟨.PAID, 9.99, "USDT", true⟩) "t1").2 = .Confirmed ∧
    getOrder (checkPaymentMain dbC5 "ord5"
        (.success ⟨.PAID, 9.99, "USDT", true⟩) "t1").1 "ord5" =
      some ⟨"ord5", 5, 9.99, "inv5", .paid, some "t1"⟩ ∧
    getUser (checkPaymentMain dbC5 "ord5"
        (.success ⟨.PAID, 9.99, "USDT", true⟩) "t1").1 5 =
      some ⟨5, 0 + 9.99, 0 + 1⟩ ∧
    (checkPaymentMain dbC5 "ord5"
        (.success ⟨.PAID, 9.99, "USDT", true⟩) "t1").1.transactions =
      dbC5.transactions ++ [⟨"inv5", "ord5", 9.99, "USDT", .paid⟩] :=
  checkPaymentMain_paid_confirms dbC5 "ord5" "t1" ordC5 ⟨5, 0, 0⟩
    9.99 "USDT" rfl rfl rfl rfl

/-! ## Claim C6 -/

/-- Claim C6 (counterexample): when the gateway reports an expired invoice
for a pending order, the `main.py` poll reconciliation does NOT set the
order's status to expired — it leaves the store completely unchanged (the
status stays pending) and only renders a message. -/
theorem checkPaymentMain_expired_leaves_pending :
    (getOrder (checkPaymentMain dbC6 "ord6"
      (.success (cryptobotCheckPayment (some ⟨"expired", 10, "USDT"⟩)))
      "t1").1 "ord6").map (fun o => o.status) ≠ some .expired ∧
    checkPaymentMain dbC6 "ord6"
      (.success (cryptobotCheckPayment (some ⟨"expired", 10, "USDT"⟩)))
      "t1" = (dbC6, .NotPaid .EXPIRED) ∧
    (getOrder dbC6 "ord6").map (fun o => o.status) = some .pending :=
  ⟨by decide, rfl, rfl⟩

/-- Claim C6 (amended): on any non-paid gateway result (expired included)
the `main.py` poll reconciliation performs no mutation at all — the store
is returned unchanged, so there is no Transaction and no user change, and
the order keeps its pending status — and the handler merely reports the
non-paid status; the poll path never writes an expired status. -/
theorem checkPaymentMain_not_paid_no_mutation
    (db : DB) (oid now : String) (order : OrderRow) (pc : PaymentCheck)
    (hord : getOrder db oid = some order)
    (_hpend : order.status = Status.pending)
    (hnp : pc.is_paid = false) :
    checkPaymentMain db oid (.success pc) now = (db, .NotPaid pc.status) := by
  unfold checkPaymentMain
  rw [hord]
  simp [hnp]

/-- Claim C6 (witness): the expiry scenario on the concrete pending order
of `dbC6`. -/
theorem checkPaymentMain_not_paid_no_mutation_witness :
    checkPaymentMain dbC6 "ord6"
      (.success ⟨.EXPIRED, 10, "USDT", false⟩) "t1" =
      (dbC6, .NotPaid .EXPIRED) :=
  checkPaymentMain_not_paid_no_mutation dbC6 "ord6" "t1"
    ⟨"ord6", 6, 10, "inv6", .pending, none⟩ ⟨.EXPIRED, 10, "USDT", false⟩
    rfl rfl rfl

/-! ## Claim C7 -/

/-- Claim C7 (counterexample): the admin cancel path has no pending guard.
`manual_cancel_order` on an order that is already paid silently flips its
status to cancelled instead of denying the request. -/
theorem manualCancelOrder_mutates_paid_order :
    (getOrder dbC7 "ord7").map (fun o => o.status) = some .paid ∧
    (getOrder (manualCancelOrder dbC7 "ord7") "ord7").map
      (fun o => o.status) = some .cancelled :=
  ⟨rfl, rfl⟩

/-- Claim C7 (amended): the user-facing cancel entry points (`main.py
cancel_payment` and the identical `bot.py cancel_order`) are permitted
only on pending orders — a pending order is set to cancelled with no
monetary effect, and a terminal order yields a denied outcome with the
store untouched — but the admin `manual_cancel_order` sets the status to
cancelled unconditionally (silently mutating even terminal orders, though
still with no user-aggregate or transaction change). -/
theorem cancel_pending_only_user_paths
    (db : DB) (oid : String) (order : OrderRow)
    (hord : getOrder db oid = some order) :
    cancelOrderBot db oid = cancelPaymentMain db oid ∧
    (order.status = .pending →
      (cancelPaymentMain db oid).2 = .Cancelled ∧
      getOrder (cancelPaymentMain db oid).1 oid =
        some { order with status := .cancelled } ∧
      (cancelPaymentMain db oid).1.users = db.users ∧
      (cancelPaymentMain db oid).1.transactions = db.transactions) ∧
    (order.status ≠ .pending → cancelPaymentMain db oid = (db, .Denied)) ∧
    (manualCancelOrder db oid).users = db.users ∧
    (manualCancelOrder db oid).transactions = db.transactions := by
  refine ⟨rfl, ?_, ?_, ?_, ?_⟩
  · intro h
    have hc : cancelPaymentMain db oid =
        (updateOrderStatus db oid .cancelled none, .Cancelled) := by
      unfold cancelPaymentMain
      rw [hord]
      simp [h]
    rw [hc]
    refine ⟨rfl, ?_, rfl, rfl⟩
    rw [getOrder_updateOrderStatus, hord]
    rfl
  · intro h
    unfold cancelPaymentMain
    rw [hord]
    simp [h]
  · unfold manualCancelOrder
    rw [hord]
    rfl
  · unfold manualCancelOrder
    rw [hord]
    rfl

/-- Claim C7 (witness): the cancel behaviour evaluated on the store whose
only order is already paid. -/
theorem cancel_pending_only_user_paths_witness :
    cancelOrderBot dbC7 "ord7" = cancelPaymentMain dbC7 "ord7" ∧
    (Status.paid = .pending →
      (cancelPaymentMain dbC7 "ord7").2 = .Cancelled ∧
      getOrder (cancelPaymentMain dbC7 "ord7").1 "ord7" =
        some ⟨"ord7", 3, 10, "inv7", .cancelled, some "t0"⟩ ∧
      (cancelPaymentMain dbC7 "ord7").1.users = dbC7.users ∧
      (cancelPaymentMain dbC7 "ord7").1.transactions = dbC7.transactions) ∧
    (Status.paid ≠ .pending → cancelPaymentMain dbC7 "ord7" =
      (dbC7, .Denied)) ∧
    (manualCancelOrder dbC7 "ord7").users = dbC7.users ∧
    (manualCancelOrder dbC7 "ord7").transactions = dbC7.transactions :=
  cancel_pending_only_user_paths dbC7 "ord7"
    ⟨"ord7", 3, 10, "inv7", .paid, some "t0"⟩ rfl

/-! ## Claim C8 -/

/-- Claim C8 (counterexample): re-registration on `/start` in `bot.py`
resets an existing user's aggregates: a user with total_spent 9.99 and
orders_count 1 ends with both back at zero, so the aggregates are neither
non-decreasing nor untouched by registration. -/
theorem cmdStartRegister_resets_user_stats :
    (getUser dbC8 7).map (fun u => u.orders_count) = some 1 ∧
    getUser (cmdStartRegister dbC8 7) 7 = some ⟨7, 0, 0⟩ ∧
    (getUser (cmdStartRegister dbC8 7) 7).map
      (fun u => u.orders_count) = some 0 :=
  ⟨rfl, rfl, rfl⟩

/-- Claim C8 (amended): on the `database.py` path, registration of an
already-known user (`get_or_create_user`) leaves the store unchanged, and
the only mutator of the aggregates — the reconciliation credit
`update_user_stats` — adds the order amount to `total_spent` and one to
`orders_count`, so for non-negative amounts both are non-decreasing;
`bot.py`'s `/start` handler, however, re-inserts the user with REPLACE
semantics and thereby resets both aggregates to zero. -/
theorem userStats_monotone_on_database_path
    (db : DB) (uid : Nat) (u : UserRow) (amount : Rat)
    (hu : getUser db uid = some u) (hamt : 0 ≤ amount) :
    getOrCreateUser db uid = db ∧
    getUser (updateUserStats db uid amount) uid =
      some { u with total_spent := u.total_spent + amount,
                    orders_count := u.orders_count + 1 } ∧
    u.total_spent ≤ u.total_spent + amount ∧
    u.orders_count ≤ u.orders_count + 1 ∧
    (getUser (cmdStartRegister db uid) uid).map (fun w => w.total_spent) =
      some 0 := by
  refine ⟨?_, ?_, ?_, Nat.le_succ _, ?_⟩
  · unfold getOrCreateUser
    rw [hu]
  · rw [getUser_updateUserStats, hu]
    rfl
  · linarith
  · unfold cmdStartRegister getUser
    rw [List.find?_append]
    have hleft : (db.users.filter (fun w => !(w.user_id == uid))).find?
        (fun w => w.user_id == uid) = none := by
      rw [List.find?_eq_none]
      intro a ha
      have := (List.mem_filter.mp ha).2
      simpa using this
    rw [hleft]
    simp

/-- Claim C8 (witness): the returning user of `dbC8` with a further
7-dollar credit. -/
theorem userStats_monotone_on_database_path_witness :
    getOrCreateUser dbC8 7 = dbC8 ∧
    getUser (updateUserStats dbC8 7 7) 7 =
      some ⟨7, 9.99 + 7, 1 + 1⟩ ∧
    (9.99 : Rat) ≤ 9.99 + 7 ∧
    1 ≤ 1 + 1 ∧
    (getUser (cmdStartRegister dbC8 7) 7).map (fun w => w.total_spent) =
      some 0 :=
  userStats_monotone_on_database_path dbC8 7 ⟨7, 9.99, 1⟩ 7 rfl (by simp)

/-! ## Claim C9 -/

/-- Claim C9 (counterexample): the synchronous client
`check_payment_sync` does escalate a transport error to an expired-status
result — its blanket exception handler reports `PaymentStatus.EXPIRED`
instead of a distinct check-failed signal. -/
theorem checkPaymentSync_transport_error_reports_expired :
    (checkPaymentSync (.netError "connection timed out")).status =
      .EXPIRED :=
  rfl

/-- Claim C9 (amended): on the async path a raised gateway error is caught
by both poll handlers, which perform no mutation and report a check
failure; the synchronous `check_payment_sync`, however, swallows transport
errors and reports an `EXPIRED` status (with `is_paid` false, so no caller
credits anything) rather than a distinct check-failed outcome. -/
theorem gateway_transport_error_no_mutation
    (db : DB) (oid now msg : String) (order : OrderRow)
    (hord : getOrder db oid = some order) :
    checkPaymentMain db oid (.error msg) now = (db, .CheckFailed) ∧
    checkPaymentBot db oid (.error msg) now = (db, .CheckFailed) ∧
    (checkPaymentSync (.netError msg)).is_paid = false ∧
    (checkPaymentSync (.netError msg)).status = .EXPIRED := by
  refine ⟨?_, ?_, rfl, rfl⟩
  · unfold checkPaymentMain
    rw [hord]
  · unfold checkPaymentBot
    rw [hord]

/-- Claim C9 (witness): a timeout while polling the pending order of
`dbC9`. -/
theorem gateway_transport_error_no_mutation_witness :
    checkPaymentMain dbC9 "ord9" (.error "timeout") "t1" =
      (dbC9, .CheckFailed) ∧
    checkPaymentBot dbC9 "ord9" (.error "timeout") "t1" =
      (dbC9, .CheckFailed) ∧
    (checkPaymentSync (.netError "timeout")).is_paid = false ∧
    (checkPaymentSync (.netError "timeout")).status = .EXPIRED :=
  gateway_transport_error_no_mutation dbC9 "ord9" "t1" "timeout"
    ⟨"ord9", 2, 10, "inv9", .pending, none⟩ rfl

/-! ## Claim C10 -/

/-- Claim C10 (counterexample): the simplified gateway client in `bot.py`
does not map a missing invoice to expired — it reports the fourth status
value "unknown", outside the three-valued enumeration. -/
theorem botCheckPayment_not_found_is_unknown :
    (botCheckPayment none).status = .unknown ∧
    (botCheckPayment none).status ≠ .expired ∧
    (botCheckPayment none).is_paid = false :=
  ⟨rfl, by decide, rfl⟩

/-- Claim C10 (amended): the `cryptobot.py` client normalizes every raw
provider status into the three-valued `PaymentStatus` — "active" to
pending, "paid" to paid, "expired" to expired, anything else to expired —
and maps a not-found invoice to expired; the simplified `bot.py` client
instead reports "unknown" both for a not-found invoice and for an
unrecognized raw status. -/
theorem cryptobot_status_normalization
    (s : String) (h1 : s ≠ "active") (h2 : s ≠ "paid")
    (h3 : s ≠ "expired") :
    normalizeStatus "active" = .PENDING ∧
    normalizeStatus "paid" = .PAID ∧
    normalizeStatus "expired" = .EXPIRED ∧
    normalizeStatus s = .EXPIRED ∧
    (cryptobotCheckPayment none).status = .EXPIRED ∧
    (botCheckPayment none).status = .unknown ∧
    botNormalizeStatus s = .unknown := by
  refine ⟨rfl, rfl, rfl, ?_, rfl, rfl, ?_⟩
  · unfold normalizeStatus
    simp [h1, h2, h3]
  · unfold botNormalizeStatus
    simp [h1, h2, h3]

/-- Claim C10 (witness): the normalization table evaluated at the raw
status "unknown". -/
theorem cryptobot_status_normalization_witness :
    normalizeStatus "active" = .PENDING ∧
    normalizeStatus "paid" = .PAID ∧
    normalizeStatus "expired" = .EXPIRED ∧
    normalizeStatus "unknown" = .EXPIRED ∧
    (cryptobotCheckPayment none).status = .EXPIRED ∧
    (botCheckPayment none).status = .unknown ∧
    botNormalizeStatus "unknown" = .unknown :=
  cryptobot_status_normalization "unknown" (by decide) (by decide)
    (by decide)

end Tgbot
